import Mathlib

/-!
Verification of the MQTT state media player adapter (`schema_state.py`).

The Python source is shallowly embedded: the entity's mutable attributes
become an explicit `AdapterState` record, outbound MQTT publishes and
Home-Assistant state writes become values collected in a `CmdResult`,
and a raised Python exception becomes an `Option String` component of a
result.  JSON values are modelled by the inductive type `Json`; a raw
inbound MQTT payload is modelled as `Option Json`, where `none` stands
for a byte string that is not valid JSON at all.
-/

set_option autoImplicit false

namespace MqttMediaPlayer

/-- A JSON value, as produced by decoding an inbound payload.  Numbers are
modelled as integers (no claim below depends on fractional values). -/
inductive Json where
  | null
  | bool (b : Bool)
  | num (n : Int)
  | str (s : String)
  | arr (xs : List Json)
  | obj (kvs : List (String × Json))
  deriving Repr

/-- First-match association-list lookup, the model of Python `dict.get` /
`dict.__getitem__` for the dictionaries embedded as lists of pairs (all
dictionaries built by the code have distinct keys). -/
def alookup {α : Type} [DecidableEq α] {β : Type} (k : α) : List (α × β) → Option β
  | [] => none
  | p :: rest => if p.1 = k then some p.2 else alookup k rest

/-- Python `d[k] = v`: overwrite in place when the key is present (keeping
its position), append otherwise. -/
def dictSet {β : Type} (d : List (String × β)) (k : String) (v : β) :
    List (String × β) :=
  if k ∈ d.map Prod.fst then
    d.map (fun kv => if kv.1 = k then (k, v) else kv)
  else
    d ++ [(k, v)]

/-- Python `d.update(upd)`: set every key of `upd` in order. -/
def dictUpdate {β : Type} (d upd : List (String × β)) : List (String × β) :=
  upd.foldl (fun acc kv => dictSet acc kv.1 kv.2) d

/-- Python `del d[k]`. -/
def dictDel {β : Type} (d : List (String × β)) (k : String) : List (String × β) :=
  d.filter (fun kv => kv.1 != k)

/-- Type `MediaPlayerEntityFeature`: the feature flags referenced by
`schema_state.py`.  In the host they are distinct bits of an `IntFlag`;
a set of them is modelled below as a `Finset`. -/
inductive MediaPlayerEntityFeature where
  | PAUSE | SEEK | VOLUME_SET | VOLUME_MUTE | PREVIOUS_TRACK | NEXT_TRACK
  | TURN_ON | TURN_OFF | PLAY_MEDIA | VOLUME_STEP | SELECT_SOURCE | STOP
  | CLEAR_PLAYLIST | PLAY | SHUFFLE_SET | SELECT_SOUND_MODE | BROWSE_MEDIA
  | REPEAT_SET | GROUPING | MEDIA_ANNOUNCE | MEDIA_ENQUEUE
  | SEND_COMMAND
  | STATE
  deriving DecidableEq, Repr, Fintype

open MediaPlayerEntityFeature in
/-- The `SERVICE_TO_STRING` table of `schema_state.py` (lines 44-66).
Note that neither `SEND_COMMAND` nor `STATE` has an entry. -/
def SERVICE_TO_STRING : List (MediaPlayerEntityFeature × String) :=
  [ (PAUSE, "pause"),
    (SEEK, "seek"),
    (VOLUME_SET, "volume_set"),
    (VOLUME_MUTE, "volume_mute"),
    (PREVIOUS_TRACK, "previous_track"),
    (NEXT_TRACK, "next_track"),
    (TURN_ON, "turn_on"),
    (TURN_OFF, "turn_off"),
    (PLAY_MEDIA, "play_media"),
    (VOLUME_STEP, "volume_step"),
    (SELECT_SOURCE, "select_source"),
    (STOP, "stop"),
    (CLEAR_PLAYLIST, "clear_playlist"),
    (PLAY, "play"),
    (SHUFFLE_SET, "shuffle_set"),
    (SELECT_SOUND_MODE, "select_sound_mode"),
    (BROWSE_MEDIA, "browse_media"),
    (REPEAT_SET, "repeat_set"),
    (GROUPING, "grouping"),
    (MEDIA_ANNOUNCE, "media_announce"),
    (MEDIA_ENQUEUE, "media_enqueue") ]

/-- Table `STRING_TO_SERVICE = {v: k for k, v in SERVICE_TO_STRING.items()}`. -/
def STRING_TO_SERVICE : List (String × MediaPlayerEntityFeature) :=
  SERVICE_TO_STRING.map (fun p => (p.2, p.1))

/-- Modelled from the spec: `strings_to_services` is imported from the
repository's `schema` module, which is not among the provided sources.
Per the spec it resolves each configuration string through the fixed
string-to-capability table, fails listing the first unrecognized name,
and has set semantics (order irrelevant, duplicates collapse). -/
def strings_to_services (strs : List String) :
    Except String (Finset MediaPlayerEntityFeature) :=
  match strs.find? (fun s => (alookup s STRING_TO_SERVICE).isNone) with
  | some bad => .error ("Invalid supported feature: " ++ bad)
  | none => .ok (strs.filterMap (fun s => alookup s STRING_TO_SERVICE)).toFinset

/-- Modelled from the spec: `services_to_strings` is imported from the
repository's `schema` module, which is not among the provided sources.
Per the spec it is the inverse of `strings_to_services`, producing the
names of the member capabilities in a stable table-defined order. -/
def services_to_strings (s : Finset MediaPlayerEntityFeature) : List String :=
  SERVICE_TO_STRING.filterMap (fun p => if p.1 ∈ s then some p.2 else none)

open MediaPlayerEntityFeature in
/-- Constant `DEFAULT_SERVICES` (lines 71-80). -/
def DEFAULT_SERVICES : Finset MediaPlayerEntityFeature :=
  {TURN_ON, TURN_OFF, PLAY, PAUSE, STOP, VOLUME_SET, VOLUME_MUTE, SELECT_SOURCE}

/-- Constant `DEFAULT_SERVICE_STRINGS = services_to_strings(DEFAULT_SERVICES, ...)`. -/
def DEFAULT_SERVICE_STRINGS : List String :=
  services_to_strings DEFAULT_SERVICES

/-- Escape the characters of a string for JSON output. -/
def escapeChars : List Char → String
  | [] => ""
  | c :: cs =>
    (if c = '"' then "\\\"" else if c = '\\' then "\\\\" else String.singleton c) ++
      escapeChars cs

/-- Escape a string for JSON output. -/
def jsonEscape (s : String) : String :=
  escapeChars s.data

mutual

/-- The host serializer `json_dumps` (compact `orjson` style: no spaces). -/
def json_dumps : Json → String
  | .null => "null"
  | .bool true => "true"
  | .bool false => "false"
  | .num n => toString n
  | .str s => "\"" ++ jsonEscape s ++ "\""
  | .arr xs => "[" ++ jsonDumpsList xs ++ "]"
  | .obj kvs => "\x7b" ++ jsonDumpsObj kvs ++ "\x7d"

def jsonDumpsList : List Json → String
  | [] => ""
  | [x] => json_dumps x
  | x :: xs => json_dumps x ++ "," ++ jsonDumpsList xs

def jsonDumpsObj : List (String × Json) → String
  | [] => ""
  | [(k, v)] => "\"" ++ jsonEscape k ++ "\":" ++ json_dumps v
  | (k, v) :: kvs => "\"" ++ jsonEscape k ++ "\":" ++ json_dumps v ++ "," ++ jsonDumpsObj kvs

end

/-- The host decode primitive `json_loads_object` (from
`homeassistant.util.json`): parse the raw payload and insist on a JSON
object, raising otherwise.  A raw byte string that is not valid JSON is
modelled as `none`. -/
def json_loads_object : Option Json → Except String (List (String × Json))
  | none => .error "JSONDecodeError"
  | some (Json.obj kvs) => .ok kvs
  | some _ => .error "ValueError: Expected JSON dictionary"

def STATE_ON : String := "on"

def STATE_OFF : String := "off"

def STATE_PLAYING : String := "playing"

def STATE_PAUSED : String := "paused"

/-- Table `POSSIBLE_STATES` (lines 110-115). -/
def POSSIBLE_STATES : List (String × String) :=
  [ (STATE_ON, STATE_ON),
    (STATE_OFF, STATE_OFF),
    (STATE_PLAYING, STATE_PLAYING),
    (STATE_PAUSED, STATE_PAUSED) ]

open MediaPlayerEntityFeature in
/-- The `_FEATURE_PAYLOADS` table (lines 155-177): feature to the
configuration key holding its payload. -/
def _FEATURE_PAYLOADS : List (MediaPlayerEntityFeature × String) :=
  [ (PAUSE, "payload_pause"),
    (SEEK, "payload_seek"),
    (VOLUME_SET, "payload_volume_set"),
    (VOLUME_MUTE, "payload_volume_mute"),
    (PREVIOUS_TRACK, "payload_previous_track"),
    (NEXT_TRACK, "payload_next_track"),
    (TURN_ON, "payload_turn_on"),
    (TURN_OFF, "payload_turn_off"),
    (PLAY_MEDIA, "payload_play_media"),
    (VOLUME_STEP, "payload_volume_step"),
    (SELECT_SOURCE, "payload_select_source"),
    (STOP, "payload_stop"),
    (CLEAR_PLAYLIST, "payload_clear_playlist"),
    (PLAY, "payload_play"),
    (SHUFFLE_SET, "payload_shuffle_set"),
    (SELECT_SOUND_MODE, "payload_select_sound_mode"),
    (BROWSE_MEDIA, "payload_browse_media"),
    (REPEAT_SET, "payload_repeat_set"),
    (GROUPING, "payload_grouping"),
    (MEDIA_ANNOUNCE, "payload_media_announce"),
    (MEDIA_ENQUEUE, "payload_media_enqueue") ]

/-- The key tuple iterated by `_setup_from_config` (lines 261-283). -/
def PAYLOAD_KEYS : List String :=
  _FEATURE_PAYLOADS.map Prod.snd

/-- A configuration as accepted by `PLATFORM_SCHEMA_STATE_MODERN`
(lines 179-214): the schema's defaults are the field defaults here.
Only the eight `payload_*` keys that the schema declares exist in a
validated configuration; `config.get` on any other `payload_*` key
returns `None` (see `config_get`). -/
structure Config where
  source_list : List String := []
  payload_pause : String := "pause"
  payload_previous_track : String := "previous"
  payload_next_track : String := "next"
  payload_stop : String := "stop"
  payload_clear_playlist : String := "clear_playlist"
  payload_play : String := "play"
  payload_browse_media : String := "browse"
  payload_media_announce : String := "media_announce"
  send_command_topic : Option String := none
  set_volume_topic : Option String := none
  state_topic : Option String := none
  supported_features : List String := DEFAULT_SERVICE_STRINGS
  command_topic : Option String := none
  retain : Bool := false
  qos : Nat := 0
  encoding : Option String := some "utf-8"

/-- Python `config.get(key)` for the payload keys: the schema declares only eight
of the twenty-one `payload_*` keys, so the rest read as `None`. -/
def config_get (c : Config) (key : String) : Option String :=
  if key = "payload_pause" then some c.payload_pause
  else if key = "payload_previous_track" then some c.payload_previous_track
  else if key = "payload_next_track" then some c.payload_next_track
  else if key = "payload_stop" then some c.payload_stop
  else if key = "payload_clear_playlist" then some c.payload_clear_playlist
  else if key = "payload_play" then some c.payload_play
  else if key = "payload_browse_media" then some c.payload_browse_media
  else if key = "payload_media_announce" then some c.payload_media_announce
  else none

/-- The mutable attributes of `MqttStateMediaPlayer` that the embedded
methods read or write.  `attr_fan_speed` and `attr_battery_level` are
`Option Json`: `none` models the attribute not having been assigned yet. -/
structure AdapterState where
  state_attrs : List (String × Json)
  attr_state : Option String
  attr_fan_speed : Option Json
  attr_battery_level : Option Json
  attr_supported_features : Finset MediaPlayerEntityFeature
  attr_source_list : Option (List String)
  command_topic : Option String
  set_volume_topic : Option String
  send_command_topic : Option String
  payloads : List (String × Option String)
  qos : Nat
  retain : Bool
  encoding : Option String

/-- Method `_setup_from_config` (lines 248-284), together with the `__init__`
initialisation of `_state_attrs` (line 239).  `strings_to_services` failing
on an unknown feature name (which schema validation rules out) is modelled
as `none`. -/
def _setup_from_config (c : Config) : Option AdapterState :=
  match strings_to_services c.supported_features with
  | .error _ => none
  | .ok feats =>
    some
      { state_attrs := []
        attr_state := none
        attr_fan_speed := none
        attr_battery_level := none
        attr_supported_features := {MediaPlayerEntityFeature.STATE} ∪ feats
        attr_source_list := some c.source_list
        command_topic := c.command_topic
        set_volume_topic := c.set_volume_topic
        send_command_topic := c.send_command_topic
        payloads := PAYLOAD_KEYS.map (fun k => (k, config_get c k))
        qos := c.qos
        retain := c.retain
        encoding := c.encoding }

/-- Python `max(0, min(100, x))` on a decoded JSON value.  Numbers clamp;
bools compare as ints, so `min(100, True)` is `True` and `max(0, False)`
is `0`; any other value raises `TypeError`. -/
def py_clamp_0_100 : Json → Except String Json
  | Json.num n => .ok (Json.num (max 0 (min 100 n)))
  | Json.bool true => .ok (Json.bool true)
  | Json.bool false => .ok (Json.num 0)
  | _ => .error "TypeError: comparison not supported"

/-- Method `_update_state_attributes` (lines 286-290).  The second component is a
raised exception; when the battery clamp raises, the dictionary update and
the fan-speed assignment have already happened, as in Python. -/
def _update_state_attributes (a : AdapterState) (payload : List (String × Json)) :
    AdapterState × Option String :=
  let attrs := dictUpdate a.state_attrs payload
  let fan := (alookup "fan_speed" attrs).getD (Json.num 0)
  let a1 := { a with state_attrs := attrs, attr_fan_speed := some fan }
  match py_clamp_0_100 ((alookup "battery_level" attrs).getD (Json.num 0)) with
  | .ok b => ({ a1 with attr_battery_level := some b }, none)
  | .error e => (a1, some e)

/-- Python `value in POSSIBLE_STATES` on a decoded JSON value: dictionary
key membership, which raises `TypeError` on unhashable values. -/
def jsonInPossibleStates : Json → Except String Bool
  | Json.str s => .ok (alookup s POSSIBLE_STATES).isSome
  | Json.null => .ok false
  | Json.bool _ => .ok false
  | Json.num _ => .ok false
  | Json.arr _ => .error "TypeError: unhashable type"
  | Json.obj _ => .error "TypeError: unhashable type"

/-- Callback `state_message_received` (lines 301-311).  The raw inbound payload is
`none` when the bytes are not valid JSON.  The second component of the
result is the exception the handler raises, if any: the handler body
installs no exception handling of its own. -/
def state_message_received (msg : Option Json) (a : AdapterState) :
    AdapterState × Option String :=
  match json_loads_object msg with
  | .error e => (a, some e)
  | .ok payload =>
    match alookup "state" payload with
    | none => _update_state_attributes a payload
    | some v =>
      match jsonInPossibleStates v with
      | .error e => (a, some e)
      | .ok mem =>
        if mem then
          -- a recognized state string: truthy, so looked up in POSSIBLE_STATES
          _update_state_attributes
            { a with
                attr_state :=
                  match v with
                  | Json.str s => alookup s POSSIBLE_STATES
                  | _ => none }
            (dictDel payload "state")
        else
          match v with
          | Json.null =>
            -- `state is None`: falsy, so `_attr_state` is set to `None`
            _update_state_attributes { a with attr_state := none }
              (dictDel payload "state")
          | _ =>
            -- unrecognized state value: the guard fails, the `state` key is
            -- neither interpreted nor deleted
            _update_state_attributes a payload

/-- One outbound MQTT publish, as handed to the host `async_publish`. -/
structure Publish where
  topic : String
  payload : Option String
  qos : Nat
  retain : Bool
  encoding : Option String
  deriving DecidableEq, Repr

/-- The observable outcome of one command method: the adapter state after
the call, the publishes performed, the number of `async_write_ha_state`
calls, and the exception raised, if any. -/
structure CmdResult where
  s : AdapterState
  pubs : List Publish
  ha_writes : Nat
  exc : Option String

/-- Method `_async_publish_command` (lines 328-340).  A missing command topic is a
silent no-op; otherwise the payload is `self._payloads[_FEATURE_PAYLOADS[feature]]`
(a lookup that would raise `KeyError` for a feature without a table entry)
published followed by one `async_write_ha_state`. -/
def _async_publish_command (a : AdapterState) (feature : MediaPlayerEntityFeature) :
    CmdResult :=
  match a.command_topic with
  | none => ⟨a, [], 0, none⟩
  | some topic =>
    match alookup feature _FEATURE_PAYLOADS with
    | none => ⟨a, [], 0, some "KeyError"⟩
    | some key =>
      match alookup key a.payloads with
      | none => ⟨a, [], 0, some "KeyError"⟩
      | some p => ⟨a, [⟨topic, p, a.qos, a.retain, a.encoding⟩], 1, none⟩

/-- Method `async_turn_off` (lines 343-345). -/
def async_turn_off (a : AdapterState) : CmdResult :=
  _async_publish_command a MediaPlayerEntityFeature.TURN_OFF

/-- Method `async_turn_on` (lines 347-349). -/
def async_turn_on (a : AdapterState) : CmdResult :=
  _async_publish_command a MediaPlayerEntityFeature.TURN_ON

/-- Method `async_set_volume_level` (lines 351-353): the numeric argument is not
read by the body. -/
def async_set_volume_level (a : AdapterState) (_volume : Rat) : CmdResult :=
  _async_publish_command a MediaPlayerEntityFeature.VOLUME_SET

/-- Method `async_mute_volume` (lines 355-360): both branches publish the same
command. -/
def async_mute_volume (a : AdapterState) (mute : Bool) : CmdResult :=
  if mute then
    _async_publish_command a MediaPlayerEntityFeature.VOLUME_MUTE
  else
    _async_publish_command a MediaPlayerEntityFeature.VOLUME_MUTE

/-- Method `async_select_source` (lines 362-367). -/
def async_select_source (a : AdapterState) (source : String) : CmdResult :=
  match a.attr_source_list with
  | some l =>
    if source ∈ l then
      _async_publish_command a MediaPlayerEntityFeature.SELECT_SOURCE
    else
      ⟨a, [], 0, some ("Unknown input source: " ++ source ++ ".")⟩
  | none => ⟨a, [], 0, some ("Unknown input source: " ++ source ++ ".")⟩

/-- Method `async_pause` (lines 369-371). -/
def async_pause (a : AdapterState) : CmdResult :=
  _async_publish_command a MediaPlayerEntityFeature.PAUSE

/-- Method `async_media_play` (lines 373-375). -/
def async_media_play (a : AdapterState) : CmdResult :=
  _async_publish_command a MediaPlayerEntityFeature.PLAY

/-- Method `async_media_pause` (lines 377-379). -/
def async_media_pause (a : AdapterState) : CmdResult :=
  _async_publish_command a MediaPlayerEntityFeature.PAUSE

/-- Method `async_media_previous_track` (lines 381-383). -/
def async_media_previous_track (a : AdapterState) : CmdResult :=
  _async_publish_command a MediaPlayerEntityFeature.PREVIOUS_TRACK

/-- Method `async_media_next_track` (lines 385-387). -/
def async_media_next_track (a : AdapterState) : CmdResult :=
  _async_publish_command a MediaPlayerEntityFeature.NEXT_TRACK

/-- The `params` argument of `async_send_command`: `dict | list | None`. -/
inductive SendParams where
  | pyNone
  | pyList (xs : List Json)
  | pyDict (kvs : List (String × Json))

/-- Method `async_send_command` (lines 389-413): a no-op when the send-command
topic is unset or the `SEND_COMMAND` feature bit is clear; with dict params
the payload is `json_dumps` of a message dict starting from
`\x7b"command": command\x7d` updated with the params; otherwise the raw
command string.  No `async_write_ha_state` call is made. -/
def async_send_command (a : AdapterState) (command : String) (params : SendParams) :
    CmdResult :=
  match a.send_command_topic with
  | none => ⟨a, [], 0, none⟩
  | some topic =>
    if MediaPlayerEntityFeature.SEND_COMMAND ∈ a.attr_supported_features then
      let payload :=
        match params with
        | .pyDict kvs =>
          json_dumps (Json.obj (dictUpdate [("command", Json.str command)] kvs))
        | _ => command
      ⟨a, [⟨topic, some payload, a.qos, a.retain, a.encoding⟩], 0, none⟩
    else
      ⟨a, [], 0, none⟩

/-- The outbound command surface of the adapter, one constructor per
method defined in the source. -/
inductive Command where
  | turnOff
  | turnOn
  | setVolumeLevel (v : Rat)
  | muteVolume (m : Bool)
  | selectSource (s : String)
  | pause
  | mediaPlay
  | mediaPause
  | previousTrack
  | nextTrack
  | sendCommand (cmd : String) (params : SendParams)

/-- Dispatch of an outbound invocation to the embedded method bodies. -/
def invoke (a : AdapterState) : Command → CmdResult
  | .turnOff => async_turn_off a
  | .turnOn => async_turn_on a
  | .setVolumeLevel v => async_set_volume_level a v
  | .muteVolume m => async_mute_volume a m
  | .selectSource s => async_select_source a s
  | .pause => async_pause a
  | .mediaPlay => async_media_play a
  | .mediaPause => async_media_pause a
  | .previousTrack => async_media_previous_track a
  | .nextTrack => async_media_next_track a
  | .sendCommand cmd params => async_send_command a cmd params

/-- The command methods that publish through `_async_publish_command`
without extra validation (all but source selection and send-command). -/
def Command.isPlain : Command → Bool
  | .selectSource _ => false
  | .sendCommand _ _ => false
  | _ => true

/-- An all-defaults configuration. -/
def exCfgDefault : Config := {}

/-- A configuration with only the command topic set. -/
def exCfgCmd : Config := { command_topic := some "media/cmd" }

/-- A configuration with only the volume-set topic set. -/
def exCfgVol : Config := { set_volume_topic := some "media/volume/set" }

/-- A configuration with both the volume-set topic and the command topic. -/
def exCfgVolCmd : Config :=
  { set_volume_topic := some "media/volume/set", command_topic := some "media/cmd" }

/-- A configuration with a source list but no command topic. -/
def exCfgSource : Config := { source_list := ["Radio"] }

/-- A configuration with a source list and a command topic. -/
def exCfgSourceCmd : Config :=
  { source_list := ["TV"], command_topic := some "media/cmd" }

/-- A bare adapter state whose playback status is `paused`, used as the
prior state in concrete message-handling scenarios. -/
def stPaused : AdapterState :=
  { state_attrs := []
    attr_state := some "paused"
    attr_fan_speed := none
    attr_battery_level := none
    attr_supported_features := ∅
    attr_source_list := some []
    command_topic := none
    set_volume_topic := none
    send_command_topic := none
    payloads := []
    qos := 0
    retain := false
    encoding := some "utf-8" }

/-- An adapter state with the send-command topic set and the
`SEND_COMMAND` feature bit enabled (set directly on the attributes; the
configuration schema offers no way to produce it). -/
def stSend : AdapterState :=
  { stPaused with
    send_command_topic := some "media/send"
    attr_supported_features := {MediaPlayerEntityFeature.SEND_COMMAND} }

/-- The adapter state produced by `exCfgSourceCmd`. -/
def stSourceCmd : AdapterState :=
  (_setup_from_config exCfgSourceCmd).getD stPaused

/-- The adapter state produced by the all-defaults configuration. -/
def stDefault : AdapterState :=
  (_setup_from_config exCfgDefault).getD stPaused

/-! ## General lemmas about the embedded dictionary operations -/

theorem alookup_mem {α β : Type} [DecidableEq α] {k : α} {v : β}
    {l : List (α × β)} (h : alookup k l = some v) : (k, v) ∈ l := by
  induction l with
  | nil => simp [alookup] at h
  | cons p rest ih =>
    rw [alookup] at h
    split at h
    · rename_i hp
      cases p with
      | mk a b =>
        cases h
        subst hp
        exact List.mem_cons_self _ _
    · exact List.mem_cons_of_mem _ (ih h)

theorem alookup_map_self {β : Type} (g : String → β) {key : String}
    {L : List String} (h : key ∈ L) :
    alookup key (L.map fun k => (k, g k)) = some (g key) := by
  induction L with
  | nil => cases h
  | cons a rest ih =>
    rw [List.map_cons, alookup]
    rcases List.mem_cons.mp h with rfl | hmem
    · rw [if_pos rfl]
    · by_cases ha : a = key
      · subst ha; rw [if_pos rfl]
      · rw [if_neg ha]; exact ih hmem

theorem mem_keys_dictSet_self {β : Type} (d : List (String × β)) (k : String) (v : β) :
    k ∈ (dictSet d k v).map Prod.fst := by
  unfold dictSet
  split
  · rename_i h
    obtain ⟨kv, hkv, hk⟩ := List.mem_map.mp h
    exact List.mem_map.mpr ⟨if kv.1 = k then (k, v) else kv,
      List.mem_map.mpr ⟨kv, hkv, rfl⟩, by rw [if_pos hk]⟩
  · simp

theorem mem_keys_dictSet_of_mem {β : Type} {d : List (String × β)} {k' : String}
    (k : String) (v : β) (h : k' ∈ d.map Prod.fst) :
    k' ∈ (dictSet d k v).map Prod.fst := by
  unfold dictSet
  split
  · obtain ⟨kv, hkv, hk⟩ := List.mem_map.mp h
    refine List.mem_map.mpr ⟨if kv.1 = k then (k, v) else kv,
      List.mem_map.mpr ⟨kv, hkv, rfl⟩, ?_⟩
    by_cases hc : kv.1 = k
    · rw [if_pos hc]; rw [← hk, hc]
    · rw [if_neg hc]; exact hk
  · rw [List.map_append, List.mem_append]
    exact Or.inl h

theorem mem_keys_dictUpdate_left {β : Type} {d : List (String × β)} {k' : String}
    (p : List (String × β)) (h : k' ∈ d.map Prod.fst) :
    k' ∈ (dictUpdate d p).map Prod.fst := by
  induction p generalizing d with
  | nil => exact h
  | cons kv rest ih =>
    show k' ∈ (dictUpdate (dictSet d kv.1 kv.2) rest).map Prod.fst
    exact ih (mem_keys_dictSet_of_mem kv.1 kv.2 h)

theorem mem_keys_dictUpdate_right {β : Type} {p : List (String × β)} {k' : String}
    (d : List (String × β)) (h : k' ∈ p.map Prod.fst) :
    k' ∈ (dictUpdate d p).map Prod.fst := by
  induction p generalizing d with
  | nil => cases h
  | cons kv rest ih =>
    show k' ∈ (dictUpdate (dictSet d kv.1 kv.2) rest).map Prod.fst
    rw [List.map_cons] at h
    rcases List.mem_cons.mp h with rfl | hmem
    · exact mem_keys_dictUpdate_left rest (mem_keys_dictSet_self d kv.1 kv.2)
    · exact ih _ hmem

/-! ## The capability registry: string and set conversions -/

theorem table_lookup_roundtrip :
    ∀ p ∈ SERVICE_TO_STRING, alookup p.2 STRING_TO_SERVICE = some p.1 := by
  decide

theorem lookup_result_in_table {s : String} {f : MediaPlayerEntityFeature}
    (h : alookup s STRING_TO_SERVICE = some f) :
    f ∈ SERVICE_TO_STRING.map Prod.fst := by
  have hm := alookup_mem h
  rw [STRING_TO_SERVICE, List.mem_map] at hm
  obtain ⟨p, hp, he⟩ := hm
  injection he with h1 h2
  exact List.mem_map.mpr ⟨p, hp, h2⟩

theorem strings_to_services_ok (L : List String)
    (hL : ∀ x ∈ L, (alookup x STRING_TO_SERVICE).isSome) :
    strings_to_services L =
      Except.ok (L.filterMap fun s => alookup s STRING_TO_SERVICE).toFinset := by
  unfold strings_to_services
  have hfind : L.find? (fun s => (alookup s STRING_TO_SERVICE).isNone) = none := by
    rw [List.find?_eq_none]
    intro x hx
    have := hL x hx
    cases halt : alookup x STRING_TO_SERVICE with
    | none => rw [halt] at this; cases this
    | some f => simp
  rw [hfind]

theorem services_to_strings_roundtrip (S : Finset MediaPlayerEntityFeature)
    (hS : ∀ f ∈ S, f ∈ SERVICE_TO_STRING.map Prod.fst) :
    strings_to_services (services_to_strings S) = Except.ok S := by
  have hvalid : ∀ x ∈ services_to_strings S, (alookup x STRING_TO_SERVICE).isSome := by
    intro x hx
    rw [services_to_strings, List.mem_filterMap] at hx
    obtain ⟨p, hp, hps⟩ := hx
    by_cases hmem : p.1 ∈ S
    · rw [if_pos hmem] at hps
      cases hps
      rw [table_lookup_roundtrip p hp]
      rfl
    · rw [if_neg hmem] at hps
      cases hps
  rw [strings_to_services_ok _ hvalid]
  congr 1
  apply Finset.ext
  intro f
  rw [List.mem_toFinset, List.mem_filterMap]
  constructor
  · rintro ⟨x, hx, hlook⟩
    rw [services_to_strings, List.mem_filterMap] at hx
    obtain ⟨p, hp, hps⟩ := hx
    by_cases hmem : p.1 ∈ S
    · rw [if_pos hmem] at hps
      cases hps
      rw [table_lookup_roundtrip p hp] at hlook
      cases hlook
      exact hmem
    · rw [if_neg hmem] at hps
      cases hps
  · intro hf
    obtain ⟨p, hp, hpf⟩ := List.mem_map.mp (hS f hf)
    refine ⟨p.2, ?_, ?_⟩
    · rw [services_to_strings, List.mem_filterMap]
      refine ⟨p, hp, ?_⟩
      rw [hpf, if_pos hf]
    · rw [table_lookup_roundtrip p hp, hpf]

/-! ## Frame lemmas for the outbound commands -/

theorem publish_command_no_topic (a : AdapterState) (f : MediaPlayerEntityFeature)
    (h : a.command_topic = none) : _async_publish_command a f = ⟨a, [], 0, none⟩ := by
  unfold _async_publish_command
  rw [h]

theorem publish_command_state_eq (a : AdapterState) (f : MediaPlayerEntityFeature) :
    (_async_publish_command a f).s = a := by
  unfold _async_publish_command
  split
  · rfl
  · split
    · rfl
    · split <;> rfl

/-- Inversion of `_setup_from_config`: a successfully set-up adapter state
is exactly the record built from the configuration. -/
theorem setup_fields {c : Config} {st : AdapterState}
    (hs : _setup_from_config c = some st) :
    ∃ feats, strings_to_services c.supported_features = Except.ok feats ∧
      st = { state_attrs := []
             attr_state := none
             attr_fan_speed := none
             attr_battery_level := none
             attr_supported_features := {MediaPlayerEntityFeature.STATE} ∪ feats
             attr_source_list := some c.source_list
             command_topic := c.command_topic
             set_volume_topic := c.set_volume_topic
             send_command_topic := c.send_command_topic
             payloads := PAYLOAD_KEYS.map (fun k => (k, config_get c k))
             qos := c.qos
             retain := c.retain
             encoding := c.encoding } := by
  unfold _setup_from_config at hs
  split at hs
  · cases hs
  · rename_i feats heq
    exact ⟨feats, heq, (Option.some.inj hs).symm⟩

/-- Lemma: `_update_state_attributes` leaves the playback status alone and merges
the payload into the extra attributes. -/
theorem update_attrs_fields (a : AdapterState) (p : List (String × Json)) :
    (_update_state_attributes a p).1.attr_state = a.attr_state ∧
    (_update_state_attributes a p).1.state_attrs = dictUpdate a.state_attrs p := by
  unfold _update_state_attributes
  dsimp only
  cases py_clamp_0_100 ((alookup "battery_level" (dictUpdate a.state_attrs p)).getD (Json.num 0)) <;>
    exact ⟨rfl, rfl⟩

/-! ## The claims -/

/-- Claim C7: with no command topic configured, every plain command method
(turn on and off, volume set, mute, transport controls) performs zero
publishes, zero host state writes, raises nothing and leaves the adapter
state untouched. -/
theorem no_command_topic_silent_noop (a : AdapterState) (cmd : Command)
    (h : a.command_topic = none) (hp : cmd.isPlain = true) :
    invoke a cmd = ⟨a, [], 0, none⟩ := by
  cases cmd with
  | turnOff => exact publish_command_no_topic a MediaPlayerEntityFeature.TURN_OFF h
  | turnOn => exact publish_command_no_topic a MediaPlayerEntityFeature.TURN_ON h
  | setVolumeLevel v => exact publish_command_no_topic a MediaPlayerEntityFeature.VOLUME_SET h
  | muteVolume m =>
    cases m <;> exact publish_command_no_topic a MediaPlayerEntityFeature.VOLUME_MUTE h
  | selectSource s => simp [Command.isPlain] at hp
  | pause => exact publish_command_no_topic a MediaPlayerEntityFeature.PAUSE h
  | mediaPlay => exact publish_command_no_topic a MediaPlayerEntityFeature.PLAY h
  | mediaPause => exact publish_command_no_topic a MediaPlayerEntityFeature.PAUSE h
  | previousTrack => exact publish_command_no_topic a MediaPlayerEntityFeature.PREVIOUS_TRACK h
  | nextTrack => exact publish_command_no_topic a MediaPlayerEntityFeature.NEXT_TRACK h
  | sendCommand cmd params => simp [Command.isPlain] at hp

/-- Witness for claim C7 at a concrete state and command. -/
theorem no_command_topic_silent_noop_witness :
    stPaused.command_topic = none ∧ Command.turnOn.isPlain = true ∧
    invoke stPaused Command.turnOn = ⟨stPaused, [], 0, none⟩ :=
  ⟨rfl, rfl, no_command_topic_silent_noop stPaused Command.turnOn rfl rfl⟩

/-- Claim C9: every outbound invocation leaves the whole device state
record unchanged (in particular the playback status, extra attributes,
fan speed and battery level); the only effects a command method produces
are the publishes and host state-write requests in its `CmdResult`. -/
theorem invoke_preserves_device_state (a : AdapterState) (cmd : Command) :
    (invoke a cmd).s = a := by
  cases cmd with
  | turnOff => exact publish_command_state_eq a MediaPlayerEntityFeature.TURN_OFF
  | turnOn => exact publish_command_state_eq a MediaPlayerEntityFeature.TURN_ON
  | setVolumeLevel v => exact publish_command_state_eq a MediaPlayerEntityFeature.VOLUME_SET
  | muteVolume m =>
    cases m <;> exact publish_command_state_eq a MediaPlayerEntityFeature.VOLUME_MUTE
  | selectSource s =>
    show (async_select_source a s).s = a
    unfold async_select_source
    split
    · split
      · exact publish_command_state_eq ..
      · rfl
    · rfl
  | pause => exact publish_command_state_eq a MediaPlayerEntityFeature.PAUSE
  | mediaPlay => exact publish_command_state_eq a MediaPlayerEntityFeature.PLAY
  | mediaPause => exact publish_command_state_eq a MediaPlayerEntityFeature.PAUSE
  | previousTrack => exact publish_command_state_eq a MediaPlayerEntityFeature.PREVIOUS_TRACK
  | nextTrack => exact publish_command_state_eq a MediaPlayerEntityFeature.NEXT_TRACK
  | sendCommand cmd params =>
    show (async_send_command a cmd params).s = a
    unfold async_send_command
    split
    · rfl
    · split <;> rfl

/-- Claim C8: converting a list of valid capability names to a capability
set, rendering the set back to name strings, and converting those strings
again yields exactly the first set (spec round-trip law for the
registry's serialization). -/
theorem capability_round_trip (L : List String)
    (hL : ∀ x ∈ L, (alookup x STRING_TO_SERVICE).isSome) :
    ∃ S, strings_to_services L = Except.ok S ∧
      strings_to_services (services_to_strings S) = Except.ok S := by
  refine ⟨_, strings_to_services_ok L hL, services_to_strings_roundtrip _ ?_⟩
  intro f hf
  rw [List.mem_toFinset, List.mem_filterMap] at hf
  obtain ⟨x, hx, hlook⟩ := hf
  exact lookup_result_in_table hlook

/-- Witness for claim C8 at the default capability-name list. -/
theorem capability_round_trip_witness :
    (∀ x ∈ DEFAULT_SERVICE_STRINGS, (alookup x STRING_TO_SERVICE).isSome) ∧
    ∃ S, strings_to_services DEFAULT_SERVICE_STRINGS = Except.ok S ∧
      strings_to_services (services_to_strings S) = Except.ok S :=
  ⟨by decide, capability_round_trip DEFAULT_SERVICE_STRINGS (by decide)⟩

/-- Evaluation of the serialized send-command message for the concrete
command `foo` with params `bar = 1`. -/
theorem json_dumps_command_object :
    json_dumps (Json.obj (dictUpdate [("command", Json.str "foo")] [("bar", Json.num 1)])) =
      "\x7b\"command\":\"foo\",\"bar\":1\x7d" := by
  have hd : dictUpdate [("command", Json.str "foo")] [("bar", Json.num 1)] =
      [("command", Json.str "foo"), ("bar", Json.num 1)] := rfl
  rw [hd]
  simp [json_dumps, jsonDumpsObj, jsonEscape]
  rfl

/-- Claim C6: with the arbitrary-command topic set and the `SEND_COMMAND`
feature bit enabled, `async_send_command` with dict params publishes
exactly one message, the JSON object holding the command name and the
params, and with no dict params it publishes the raw command string. -/
theorem send_command_payload_shape (a : AdapterState) (t : String)
    (ht : a.send_command_topic = some t)
    (hf : MediaPlayerEntityFeature.SEND_COMMAND ∈ a.attr_supported_features) :
    (async_send_command a "foo" (SendParams.pyDict [("bar", Json.num 1)])).pubs =
      [⟨t, some "\x7b\"command\":\"foo\",\"bar\":1\x7d", a.qos, a.retain, a.encoding⟩] ∧
    ∀ cmd : String, (async_send_command a cmd SendParams.pyNone).pubs =
      [⟨t, some cmd, a.qos, a.retain, a.encoding⟩] := by
  constructor
  · unfold async_send_command
    rw [ht]
    simp only [if_pos hf]
    rw [json_dumps_command_object]
  · intro cmd
    unfold async_send_command
    rw [ht]
    simp only [if_pos hf]

/-- Witness for claim C6 at a concrete adapter state. -/
theorem send_command_payload_shape_witness :
    stSend.send_command_topic = some "media/send" ∧
    MediaPlayerEntityFeature.SEND_COMMAND ∈ stSend.attr_supported_features ∧
    (async_send_command stSend "foo" (SendParams.pyDict [("bar", Json.num 1)])).pubs =
      [⟨"media/send", some "\x7b\"command\":\"foo\",\"bar\":1\x7d", 0, false, some "utf-8"⟩] ∧
    (async_send_command stSend "foo" SendParams.pyNone).pubs =
      [⟨"media/send", some "foo", 0, false, some "utf-8"⟩] :=
  ⟨rfl, by decide,
    (send_command_payload_shape stSend "media/send" rfl (by decide)).1,
    (send_command_payload_shape stSend "media/send" rfl (by decide)).2 "foo"⟩

/-- Claim C5 (counterexample): under the schema the `payload_turn_on` key
does not exist, so the registered TurnOn payload is `None`; with a command
topic configured, `async_turn_on` nevertheless performs a publish, with
payload `None` — it is not a no-op and not an error. -/
theorem turn_on_publishes_none_payload :
    Option.map (fun st => ((async_turn_on st).pubs, (async_turn_on st).exc))
        (_setup_from_config exCfgCmd) =
      some ([⟨"media/cmd", none, 0, false, some "utf-8"⟩], none) := rfl

/-- Claim C5 (amended): a capability whose payload key is absent from the
schema (TurnOn here) is still invocable; with the command topic configured
its invocation publishes one message whose payload is `None`, performs one
host state write, and raises nothing. -/
theorem missing_payload_published_none (c : Config) (st : AdapterState) (t : String)
    (hs : _setup_from_config c = some st) (hct : c.command_topic = some t) :
    (async_turn_on st).pubs = [⟨t, none, c.qos, c.retain, c.encoding⟩] ∧
    (async_turn_on st).ha_writes = 1 ∧
    (async_turn_on st).exc = none := by
  obtain ⟨feats, heq, rfl⟩ := setup_fields hs
  have h2 : alookup "payload_turn_on" (PAYLOAD_KEYS.map fun k => (k, config_get c k)) =
      some (config_get c "payload_turn_on") := alookup_map_self _ (by decide)
  have h3 : config_get c "payload_turn_on" = none := rfl
  unfold async_turn_on _async_publish_command
  dsimp only
  rw [hct]
  simp only [h2, h3]
  exact ⟨rfl, rfl, rfl⟩

/-- Witness for the amended claim C5. -/
theorem missing_payload_published_none_witness :
    exCfgCmd.command_topic = some "media/cmd" ∧
    (async_turn_on ((_setup_from_config exCfgCmd).getD stPaused)).pubs =
      [⟨"media/cmd", none, 0, false, some "utf-8"⟩] :=
  ⟨rfl, (missing_payload_published_none exCfgCmd _ "media/cmd" rfl rfl).1⟩

/-- Claim C4 (counterexample): with `Radio` in the configured source list
but no command topic configured, `async_select_source("Radio")` neither
raises nor publishes anything — contradicting the unconditional claim that
an in-list source is published to the command topic. -/
theorem select_source_silent_without_command_topic :
    "Radio" ∈ exCfgSource.source_list ∧
    Option.map (fun st => ((async_select_source st "Radio").pubs,
        (async_select_source st "Radio").exc))
        (_setup_from_config exCfgSource) =
      some ([], none) := ⟨by decide, rfl⟩

/-- Claim C4 (amended): selecting a source outside the configured list
raises a `ValueError`-style error and performs zero publishes; selecting a
source in the list publishes the registered SelectSource payload (which is
`None` under the schema) to the command topic, provided the command topic
is configured. -/
theorem select_source_validation (c : Config) (st : AdapterState) (s : String)
    (hs : _setup_from_config c = some st) :
    (s ∉ c.source_list →
      (async_select_source st s).pubs = [] ∧
      (async_select_source st s).exc = some ("Unknown input source: " ++ s ++ ".") ∧
      (async_select_source st s).ha_writes = 0) ∧
    (∀ t, s ∈ c.source_list → c.command_topic = some t →
      (async_select_source st s).pubs = [⟨t, none, c.qos, c.retain, c.encoding⟩] ∧
      (async_select_source st s).exc = none) := by
  obtain ⟨feats, heq, rfl⟩ := setup_fields hs
  have h2 : alookup "payload_select_source" (PAYLOAD_KEYS.map fun k => (k, config_get c k)) =
      some (config_get c "payload_select_source") := alookup_map_self _ (by decide)
  have h3 : config_get c "payload_select_source" = none := rfl
  constructor
  · intro hnot
    unfold async_select_source
    dsimp only
    rw [if_neg hnot]
    exact ⟨rfl, rfl, rfl⟩
  · intro t hmem hct
    unfold async_select_source _async_publish_command
    dsimp only
    rw [if_pos hmem, hct]
    simp only [h2, h3]
    exact ⟨rfl, rfl⟩

/-- Witness for the amended claim C4. -/
theorem select_source_validation_witness :
    ("Radio" ∉ exCfgSourceCmd.source_list ∧
      (async_select_source stSourceCmd "Radio").pubs = [] ∧
      (async_select_source stSourceCmd "Radio").exc =
        some ("Unknown input source: " ++ "Radio" ++ ".")) ∧
    ("TV" ∈ exCfgSourceCmd.source_list ∧
      (async_select_source stSourceCmd "TV").pubs =
        [⟨"media/cmd", none, 0, false, some "utf-8"⟩]) := by
  have h := select_source_validation exCfgSourceCmd stSourceCmd "Radio" rfl
  have h2 := select_source_validation exCfgSourceCmd stSourceCmd "TV" rfl
  refine ⟨⟨by decide, ?_, ?_⟩, ⟨by decide, ?_⟩⟩
  · exact (h.1 (by decide)).1
  · exact (h.1 (by decide)).2.1
  · exact (h2.2 "media/cmd" (by decide) rfl).1

/-- Claim C10: the feature-name table has no `send_command` entry, so no
schema-validated configuration can enable the `SEND_COMMAND` bit, and
`async_send_command` publishes nothing (and raises nothing) for every
input on every adapter produced by `_setup_from_config`. -/
theorem send_command_feature_unreachable (c : Config) (st : AdapterState)
    (hs : _setup_from_config c = some st) :
    "send_command" ∉ SERVICE_TO_STRING.map Prod.snd ∧
    MediaPlayerEntityFeature.SEND_COMMAND ∉ st.attr_supported_features ∧
    ∀ (cmd : String) (params : SendParams),
      (async_send_command st cmd params).pubs = [] ∧
      (async_send_command st cmd params).exc = none := by
  obtain ⟨feats, heq, rfl⟩ := setup_fields hs
  have hnotin : MediaPlayerEntityFeature.SEND_COMMAND ∉ feats := by
    intro hmem
    unfold strings_to_services at heq
    split at heq
    · cases heq
    · injection heq with h
      subst h
      rw [List.mem_toFinset, List.mem_filterMap] at hmem
      obtain ⟨x, hx, hlook⟩ := hmem
      exact absurd (lookup_result_in_table hlook) (by decide)
  have hnot2 : MediaPlayerEntityFeature.SEND_COMMAND ∉
      ({MediaPlayerEntityFeature.STATE} : Finset MediaPlayerEntityFeature) ∪ feats := by
    intro hmem
    rcases Finset.mem_union.mp hmem with h1 | h1
    · exact absurd (Finset.mem_singleton.mp h1) (by decide)
    · exact hnotin h1
  refine ⟨by decide, hnot2, ?_⟩
  intro cmd params
  unfold async_send_command
  dsimp only
  cases hsend : c.send_command_topic with
  | none => exact ⟨rfl, rfl⟩
  | some topic =>
    dsimp only
    rw [if_neg hnot2]
    exact ⟨rfl, rfl⟩

/-- Witness for claim C10 at the all-defaults configuration. -/
theorem send_command_feature_unreachable_witness :
    MediaPlayerEntityFeature.SEND_COMMAND ∉ stDefault.attr_supported_features ∧
    (async_send_command stDefault "foo" SendParams.pyNone).pubs = [] :=
  ⟨(send_command_feature_unreachable exCfgDefault stDefault rfl).2.1,
    ((send_command_feature_unreachable exCfgDefault stDefault rfl).2.2 "foo"
      SendParams.pyNone).1⟩

/-- Claim C1 (code-bug exhibit): `async_set_volume_level` never touches the
configured volume-set topic.  With only the volume-set topic configured it
publishes nothing at all; with a command topic also configured, it
publishes the (None) VolumeSet payload to the command topic, for any
volume argument. -/
theorem set_volume_level_ignores_volume_topic :
    exCfgVol.set_volume_topic = some "media/volume/set" ∧
    Option.map (fun st => (async_set_volume_level st (1/2)).pubs)
        (_setup_from_config exCfgVol) = some [] ∧
    Option.map (fun st => ((async_set_volume_level st (1/2)).pubs,
        (async_set_volume_level st (7/10)).pubs))
        (_setup_from_config exCfgVolCmd) =
      some ([⟨"media/cmd", none, 0, false, some "utf-8"⟩],
            [⟨"media/cmd", none, 0, false, some "utf-8"⟩]) :=
  ⟨rfl, rfl, rfl⟩

/-- Claim C3 (counterexample): a decoded payload that is not a JSON object
leaves the state unchanged but the handler raises — the decode exception
escapes `state_message_received` rather than being swallowed. -/
theorem decode_error_escapes_counterexample :
    (state_message_received (some (Json.num 5)) stPaused).2 =
      some "ValueError: Expected JSON dictionary" ∧
    (state_message_received (some (Json.num 5)) stPaused).1 = stPaused :=
  ⟨rfl, rfl⟩

/-- Claim C3 (amended): for every raw payload on which the host JSON
decode fails (not JSON, or not an object), the handler mutates nothing —
but the exception propagates out of the handler, which installs no
exception handling. -/
theorem decode_error_state_unchanged (msg : Option Json) (a : AdapterState) (e : String)
    (h : json_loads_object msg = .error e) :
    state_message_received msg a = (a, some e) := by
  unfold state_message_received
  rw [h]

/-- Witness for the amended claim C3. -/
theorem decode_error_state_unchanged_witness :
    json_loads_object none = Except.error "JSONDecodeError" ∧
    state_message_received none stPaused = (stPaused, some "JSONDecodeError") :=
  ⟨rfl, decode_error_state_unchanged none stPaused "JSONDecodeError" rfl⟩

/-- Claim C2 (counterexample): on payload `\x7b"state":"bogus"\x7d` the
playback status is indeed unchanged, but the `state` key is not dropped:
it is merged into the extra-attributes mapping. -/
theorem bogus_state_retained_counterexample :
    (state_message_received (some (Json.obj [("state", Json.str "bogus")])) stPaused).1.state_attrs =
      [("state", Json.str "bogus")] ∧
    (state_message_received (some (Json.obj [("state", Json.str "bogus")])) stPaused).1.attr_state =
      some "paused" :=
  ⟨rfl, rfl⟩

/-- Claim C2 (amended): an inbound object payload whose `state` value is a
string outside the closed status vocabulary leaves the playback status
unchanged and merges the whole payload — including the unrecognized
`state` entry — into the extra attributes. -/
theorem unknown_state_key_merged (a : AdapterState) (payload : List (String × Json)) (s : String)
    (hstate : alookup "state" payload = some (Json.str s))
    (hbad : alookup s POSSIBLE_STATES = none) :
    (state_message_received (some (Json.obj payload)) a).1.attr_state = a.attr_state ∧
    (state_message_received (some (Json.obj payload)) a).1.state_attrs =
      dictUpdate a.state_attrs payload ∧
    "state" ∈ ((state_message_received (some (Json.obj payload)) a).1.state_attrs).map Prod.fst := by
  have hrun : state_message_received (some (Json.obj payload)) a =
      _update_state_attributes a payload := by
    unfold state_message_received
    simp only [json_loads_object, hstate, jsonInPossibleStates, hbad, Option.isSome_none,
      Bool.false_eq_true, if_false]
  obtain ⟨h1, h2⟩ := update_attrs_fields a payload
  refine ⟨hrun ▸ h1, hrun ▸ h2, ?_⟩
  rw [hrun, h2]
  exact mem_keys_dictUpdate_right a.state_attrs
    (List.mem_map.mpr ⟨("state", Json.str s), alookup_mem hstate, rfl⟩)

/-- Witness for the amended claim C2. -/
theorem unknown_state_key_merged_witness :
    alookup "state" [("state", Json.str "bogus"), ("x", Json.num 1)] =
      some (Json.str "bogus") ∧
    alookup "bogus" POSSIBLE_STATES = none ∧
    (state_message_received
        (some (Json.obj [("state", Json.str "bogus"), ("x", Json.num 1)])) stPaused).1.attr_state =
      stPaused.attr_state ∧
    (state_message_received
        (some (Json.obj [("state", Json.str "bogus"), ("x", Json.num 1)])) stPaused).1.state_attrs =
      dictUpdate stPaused.state_attrs [("state", Json.str "bogus"), ("x", Json.num 1)] := by
  have h := unknown_state_key_merged stPaused
    [("state", Json.str "bogus"), ("x", Json.num 1)] "bogus" rfl rfl
  exact ⟨rfl, rfl, h.1, h.2.1⟩

end MqttMediaPlayer
